import Mathlib

/-!
Shallow embedding of the qualification logic of `AssessmentApp.py`:
the per-level joint-status computation, submission counts, sequential
gating, entry construction on submission, threshold enforcement, the
append to the assessment store, and the administrator operations on the
evaluator-account store.
-/

namespace Assessment

/-- The three certification levels (`LEVEL #1`, `LEVEL #2`, `LEVEL #3`). -/
inductive Level : Type where
  | one : Level
  | two : Level
  | three : Level
deriving DecidableEq, Repr

/-- Position of a level in the order the code iterates (`levels` list). -/
def Level.idx : Level → Nat
  | .one => 0
  | .two => 1
  | .three => 2

/-- One row of the assessment store (`assessment_data.csv`).  Per-level flags
and the per-level data columns are `Option`s: `none` models an empty cell
(a dict key never written by the submission code). -/
structure Record : Type where
  trainerId : String
  trainerName : String
  department : String
  level1 : Option String
  level2 : Option String
  level3 : Option String
  managerReferral : Option String
  total : Option Nat
  average : Option ℚ
  statusOverall : Option String
  scoreStatus : Option String
  reminder : Option String
  params : List (String × String)
  evalUsername : String
  evalRole : String
deriving DecidableEq, Repr

/-- The flag column of a record for a given level. -/
def Record.levelFlag (r : Record) : Level → Option String
  | .one => r.level1
  | .two => r.level2
  | .three => r.level3

/-- The per-level form data an evaluator types into the expander
(level-status selectbox, manager referral, TOTAL, AVERAGE, STATUS,
reminder, score-card status, parameter text inputs). -/
structure LevelInput : Type where
  levelStatusChoice : String
  managerReferral : String
  total : Nat
  average : ℚ
  statusOverall : String
  reminder : String
  scoreStatus : String
  params : List (String × String)
deriving DecidableEq, Repr

/-- One row of the evaluator-account store (`evaluators.csv`). -/
structure Evaluator : Type where
  username : String
  passwordHash : String
  fullName : String
  email : String
  role : String
  createdAt : String
deriving DecidableEq, Repr

/-- Does `pat` occur as a contiguous sublist of `l`?  (Python `pat in s`.) -/
def subOccurs (pat : List Char) : List Char → Bool
  | [] => pat.isEmpty
  | c :: cs => pat.isPrefixOf (c :: cs) || subOccurs pat cs

/-- Python `pat in s` on strings. -/
def strContains (s pat : String) : Bool :=
  subOccurs pat.data s.data

/-- Python `s.lower()`: lowercase character by character. -/
def strLower (s : String) : String :=
  String.mk (s.data.map Char.toLower)

/-- `df[df["Trainer ID"] == trainer_id] if trainer_id else pd.DataFrame()`:
the trainer's historical records, empty when the identifier is empty. -/
def pastAssessments (store : List Record) (tid : String) : List Record :=
  if tid == "" then [] else store.filter (fun r => r.trainerId == tid)

/-- `past_assessments[past_assessments[level] == "QUALIFIED"]`. -/
def levelRows (past : List Record) (L : Level) : List Record :=
  past.filter (fun r => r.levelFlag L == some "QUALIFIED")

/-- `any("technical" in s.lower() for s in level_rows["Evaluator Role"])`. -/
def hasTech (past : List Record) (L : Level) : Bool :=
  (levelRows past L).any (fun r => strContains (strLower r.evalRole) "technical")

/-- `any("school" in s.lower() for s in level_rows["Evaluator Role"])`. -/
def hasOps (past : List Record) (L : Level) : Bool :=
  (levelRows past L).any (fun r => strContains (strLower r.evalRole) "school")

/-- The joint level status computed in the per-level loop:
`QUALIFIED` when both role predicates hold, else `NOT QUALIFIED`. -/
def jointStatus (past : List Record) (L : Level) : String :=
  if hasTech past L && hasOps past L then "QUALIFIED" else "NOT QUALIFIED"

/-- `len(set(level_rows["Evaluator Username"].tolist()))`. -/
def submissionCount (past : List Record) (L : Level) : Nat :=
  ((levelRows past L).map (fun r => r.evalUsername)).dedup.length

/-- The sequential-gating condition of lines 266-267: `LEVEL #1` always,
`LEVEL #2` only when level 1 is jointly `QUALIFIED`, `LEVEL #3` only when
level 2 is jointly `QUALIFIED`. -/
def gateOpen (past : List Record) : Level → Bool
  | .one => true
  | .two => jointStatus past .one == "QUALIFIED"
  | .three => jointStatus past .two == "QUALIFIED"

/-- Whether the assessment input form for a level is rendered: not in the
"already qualified by both evaluators" branch, not in the "awaiting second
evaluation" branch, and the sequential gate passes. -/
def formShown (past : List Record) (L : Level) : Bool :=
  if jointStatus past L == "QUALIFIED" && decide (2 ≤ submissionCount past L) then
    false
  else if jointStatus past L == "QUALIFIED" && submissionCount past L == 1 then
    false
  else
    gateOpen past L

/-- `level_status.get(level) == "QUALIFIED" and submissions.get(...) >= 2`. -/
def fullyQualifiedB (past : List Record) (L : Level) : Bool :=
  jointStatus past L == "QUALIFIED" && decide (2 ≤ submissionCount past L)

/-- The level the entry-building loop writes: the first level in order
1, 2, 3 that is not already jointly `QUALIFIED` with at least two
submissions (the loop breaks after it). -/
def selectedLevel (past : List Record) : Option Level :=
  [Level.one, Level.two, Level.three].find? (fun L => ! fullyQualifiedB past L)

/-- `assessment_data`: a level's form data is collected only when its form
is rendered; the manager-referral text input exists only for level 3. -/
def assessmentData (past : List Record) (inputs : Level → LevelInput) (L : Level) :
    Option LevelInput :=
  if formShown past L then
    some { inputs L with
           managerReferral := if L == Level.three then (inputs L).managerReferral else "" }
  else
    none

/-- The fresh `entry` dict before the per-level loop: identity columns set,
every per-level column absent. -/
def blankEntry (tid tname dept uname role : String) : Record :=
  { trainerId := tid
    trainerName := if tname == "" then "New" else tname
    department := dept
    level1 := none, level2 := none, level3 := none
    managerReferral := none, total := none, average := none
    statusOverall := none, scoreStatus := none, reminder := none
    params := []
    evalUsername := uname
    evalRole := role }

/-- Write a level's flag column. -/
def setLevelFlag (e : Record) (L : Level) (v : String) : Record :=
  match L with
  | .one => { e with level1 := some v }
  | .two => { e with level2 := some v }
  | .three => { e with level3 := some v }

/-- The body of the entry-building loop for the chosen level:
`entry[level] = data.get("level_status", "NOT QUALIFIED")`, the
level-3-only manager referral (written only when truthy), and the shared
TOTAL / AVERAGE / STATUS / score-card / reminder / parameter columns. -/
def writeLevelData (e : Record) (L : Level) (data : Option LevelInput) : Record :=
  let e1 := setLevelFlag e L (match data with
    | some d => d.levelStatusChoice
    | none => "NOT QUALIFIED")
  let mrWritten := L == Level.three && (match data with
    | some d => d.managerReferral != ""
    | none => false)
  { e1 with
    managerReferral :=
      if mrWritten then
        some (match data with | some d => d.managerReferral | none => "")
      else e1.managerReferral
    total := some (match data with | some d => d.total | none => 0)
    average := some (match data with | some d => d.average | none => 0)
    statusOverall := some (match data with | some d => d.statusOverall | none => "REDO")
    scoreStatus := some (match data with
      | some d => d.scoreStatus
      | none => "Score Cards has not been sent")
    reminder := some (match data with | some d => d.reminder | none => "")
    params := match data with | some d => d.params | none => [] }

/-- The entry as it stands after the per-level loop, before the
qualification-criteria enforcement block. -/
def preEntry (store : List Record) (tid tname dept uname role : String)
    (inputs : Level → LevelInput) : Record :=
  let past := pastAssessments store tid
  match selectedLevel past with
  | some L => writeLevelData (blankEntry tid tname dept uname role) L
      (assessmentData past inputs L)
  | none => blankEntry tid tname dept uname role

/-- Python truthiness of `entry.get("Manager Referral")`: absent or empty. -/
def optFalsy : Option String → Bool
  | none => true
  | some s => s == ""

/-- Level-1 threshold enforcement: fires only when the submitted flag is
`QUALIFIED` and the prior submission count is at least 2; downgrades when
the record count is below 10 or the AVERAGE is below 75. -/
def enforceLevel1 (past : List Record) (e : Record) : Record × List String :=
  if e.level1 == some "QUALIFIED" && decide (2 ≤ submissionCount past Level.one) then
    if decide (past.length < 10) || decide (e.average.getD 0 < 75) then
      ({ e with level1 := some "NOT QUALIFIED" },
       ["Level 1 requires 10 courses with at least 75% average."])
    else (e, [])
  else (e, [])

/-- Level-2 threshold enforcement (count 10, average 80). -/
def enforceLevel2 (past : List Record) (e : Record) : Record × List String :=
  if e.level2 == some "QUALIFIED" && decide (2 ≤ submissionCount past Level.two) then
    if decide (past.length < 10) || decide (e.average.getD 0 < 80) then
      ({ e with level2 := some "NOT QUALIFIED" },
       ["Level 2 requires 10 courses with at least 80% average."])
    else (e, [])
  else (e, [])

/-- Level-3 threshold enforcement (count 5, average 90, manager referral). -/
def enforceLevel3 (past : List Record) (e : Record) : Record × List String :=
  if e.level3 == some "QUALIFIED" && decide (2 ≤ submissionCount past Level.three) then
    if decide (past.length < 5) || decide (e.average.getD 0 < 90)
        || optFalsy e.managerReferral then
      ({ e with level3 := some "NOT QUALIFIED" },
       ["Level 3 requires 5 courses with 90% average + Manager Referral."])
    else (e, [])
  else (e, [])

/-- The whole "Enforce Qualification Criteria" block, collecting warnings. -/
def enforceThresholds (past : List Record) (e : Record) : Record × List String :=
  let r1 := enforceLevel1 past e
  let r2 := enforceLevel2 past r1.1
  let r3 := enforceLevel3 past r2.1
  (r3.1, r1.2 ++ r2.2 ++ r3.2)

/-- The record actually appended to the store by a submission. -/
def finalEntry (store : List Record) (tid tname dept uname role : String)
    (inputs : Level → LevelInput) : Record :=
  (enforceThresholds (pastAssessments store tid)
    (preEntry store tid tname dept uname role inputs)).1

/-- The warnings surfaced by a submission's enforcement block. -/
def submitWarnings (store : List Record) (tid tname dept uname role : String)
    (inputs : Level → LevelInput) : List String :=
  (enforceThresholds (pastAssessments store tid)
    (preEntry store tid tname dept uname role inputs)).2

/-- The submit handler: an empty trainer identifier is rejected with an
error and nothing is written; otherwise the new entry is appended to the
store (`pd.concat([df_main, pd.DataFrame([entry])])`). -/
def submitEvaluation (store : List Record) (tid tname dept uname role : String)
    (inputs : Level → LevelInput) : Except String (List Record × List String) :=
  if tid == "" then
    Except.error "Trainer ID is required."
  else
    Except.ok (store ++ [finalEntry store tid tname dept uname role inputs],
               submitWarnings store tid tname dept uname role inputs)

/-- Administrator "Add New Evaluator": rejected (store unchanged) when the
username or password is empty or the username already exists; otherwise the
new account is appended. -/
def addEvaluator (hash : String → String) (store : List Evaluator)
    (uname pass fname em rl ts : String) : List Evaluator :=
  if uname == "" || pass == "" then store
  else if store.any (fun ev => ev.username == uname) then store
  else store ++ [{ username := uname, passwordHash := hash pass, fullName := fname,
                   email := em, role := rl, createdAt := ts }]

/-- Administrator "Edit Evaluator": updates full name, email, role and
(when requested with a non-empty new password) the password hash of the
first row whose username matches; the username and creation timestamp are
never touched. -/
def editEvaluator (hash : String → String) (sel fname em rl : String)
    (cp : Bool) (np : String) : List Evaluator → List Evaluator
  | [] => []
  | ev :: rest =>
    if ev.username == sel then
      let ph := if cp && np != "" then hash np else ev.passwordHash
      { ev with fullName := fname, email := em, role := rl, passwordHash := ph } :: rest
    else ev :: editEvaluator hash sel fname em rl cp np rest

/-- Administrator "Delete Evaluator":
`evaluators_df[evaluators_df["username"] != selected_eval]`. -/
def deleteEvaluator (store : List Evaluator) (sel : String) : List Evaluator :=
  store.filter (fun ev => ev.username != sel)

/-! ### Concrete stores and inputs used for examples and counterexamples -/

/-- A store record with the given trainer, evaluator identity and flags. -/
def mkRec (tid uname role : String) (l1 l2 l3 : Option String) : Record :=
  { trainerId := tid, trainerName := "", department := ""
    level1 := l1, level2 := l2, level3 := l3
    managerReferral := none, total := none, average := none
    statusOverall := none, scoreStatus := none, reminder := none
    params := [], evalUsername := uname, evalRole := role }

/-- A form input choosing `QUALIFIED` with the given average and an empty
manager referral. -/
def qualifiedInput (avg : ℚ) : LevelInput :=
  { levelStatusChoice := "QUALIFIED", managerReferral := "", total := 50
    average := avg, statusOverall := "CLEARED", reminder := ""
    scoreStatus := "Score Cards has not been sent", params := [] }

/-- One record: level 1 marked `QUALIFIED` under a Technical Evaluator only. -/
def storeTechOnly : List Record :=
  [mkRec "TR001" "alice" "Technical Evaluator" (some "QUALIFIED") none none]

/-- Level 1 marked `QUALIFIED` by both roles under two distinct usernames. -/
def storeBothRoles : List Record :=
  [mkRec "TR001" "alice" "Technical Evaluator" (some "QUALIFIED") none none,
   mkRec "TR001" "bob" "School Operations Evaluator" (some "QUALIFIED") none none]

/-- Eight historical courses for one trainer, level 1 marked `QUALIFIED`
each time by the same single Technical Evaluator. -/
def storeEightCourses : List Record :=
  List.replicate 8 (mkRec "TR001" "alice" "Technical Evaluator" (some "QUALIFIED") none none)

/-- Two distinct Technical Evaluators marked level 1 `QUALIFIED` (submission
count 2 but no School Operations sign-off). -/
def storeTwoTech : List Record :=
  [mkRec "TR001" "alice" "Technical Evaluator" (some "QUALIFIED") none none,
   mkRec "TR001" "bob" "Technical Evaluator" (some "QUALIFIED") none none]

/-- Six historical courses: levels 1 and 2 jointly qualified by both roles,
level 3 untouched. -/
def storeSixCourses : List Record :=
  [mkRec "TR001" "alice" "Technical Evaluator" (some "QUALIFIED") (some "QUALIFIED") none,
   mkRec "TR001" "bob" "School Operations Evaluator" (some "QUALIFIED") (some "QUALIFIED") none,
   mkRec "TR001" "alice" "Technical Evaluator" none none none,
   mkRec "TR001" "bob" "School Operations Evaluator" none none none,
   mkRec "TR001" "alice" "Technical Evaluator" none none none,
   mkRec "TR001" "bob" "School Operations Evaluator" none none none]

/-- Levels 1 and 2 jointly qualified; level 3 marked `QUALIFIED` by two
distinct Technical Evaluators (count 2, joint status still not reached). -/
def storeLevel3TwoTech : List Record :=
  [mkRec "TR001" "alice" "Technical Evaluator" (some "QUALIFIED") (some "QUALIFIED") none,
   mkRec "TR001" "bob" "School Operations Evaluator" (some "QUALIFIED") (some "QUALIFIED") none,
   mkRec "TR001" "carol" "Technical Evaluator" none none (some "QUALIFIED"),
   mkRec "TR001" "dave" "Technical Evaluator" none none (some "QUALIFIED")]

/-- Inputs choosing `QUALIFIED` with the given average at every level. -/
def qInputs (q : ℚ) : Level → LevelInput :=
  fun _ => qualifiedInput q

/-- A two-account evaluator store with distinct usernames. -/
def evStore : List Evaluator :=
  [{ username := "alice", passwordHash := "h1", fullName := "Alice", email := "a@x",
     role := "Evaluator", createdAt := "2024-01-01" },
   { username := "bob", passwordHash := "h2", fullName := "Bob", email := "b@x",
     role := "Viewer", createdAt := "2024-01-02" }]

/-! ### Helper lemmas -/

theorem hasTech_iff (past : List Record) (L : Level) :
    hasTech past L = true ↔
      ∃ r ∈ past, r.levelFlag L = some "QUALIFIED" ∧
        strContains (strLower r.evalRole) "technical" = true := by
  simp [hasTech, levelRows, List.any_eq_true, List.mem_filter, and_assoc]

theorem hasOps_iff (past : List Record) (L : Level) :
    hasOps past L = true ↔
      ∃ r ∈ past, r.levelFlag L = some "QUALIFIED" ∧
        strContains (strLower r.evalRole) "school" = true := by
  simp [hasOps, levelRows, List.any_eq_true, List.mem_filter, and_assoc]

theorem jointStatus_eq_qualified_iff (past : List Record) (L : Level) :
    jointStatus past L = "QUALIFIED" ↔ (hasTech past L = true ∧ hasOps past L = true) := by
  cases h1 : hasTech past L <;> cases h2 : hasOps past L <;> simp [jointStatus, h1, h2]

theorem jointStatus_cases (past : List Record) (L : Level) :
    jointStatus past L = "QUALIFIED" ∨ jointStatus past L = "NOT QUALIFIED" := by
  unfold jointStatus
  split
  · exact Or.inl rfl
  · exact Or.inr rfl

theorem blankEntry_levelFlag (tid tname dept uname role : String) (M : Level) :
    (blankEntry tid tname dept uname role).levelFlag M = none := by
  cases M <;> rfl

theorem writeLevelData_levelFlag (e : Record) (L M : Level) (d : Option LevelInput) :
    (writeLevelData e L d).levelFlag M =
      if M = L then
        some (match d with | some x => x.levelStatusChoice | none => "NOT QUALIFIED")
      else e.levelFlag M := by
  cases L <;> cases M <;> simp [writeLevelData, setLevelFlag, Record.levelFlag]

theorem preEntry_levelFlag_none_iff (store : List Record)
    (tid tname dept uname role : String) (inputs : Level → LevelInput) (M : Level) :
    (preEntry store tid tname dept uname role inputs).levelFlag M = none ↔
      selectedLevel (pastAssessments store tid) ≠ some M := by
  simp only [preEntry]
  split
  · rename_i L heq
    rw [heq, writeLevelData_levelFlag]
    by_cases h : M = L
    · subst h
      simp
    · rw [if_neg h, blankEntry_levelFlag]
      simp
      exact fun e => h e.symm
  · rename_i heq
    rw [heq]
    simp [blankEntry_levelFlag]

theorem enforceLevel1_skip (past : List Record) (e : Record) (h : e.level1 = none) :
    enforceLevel1 past e = (e, []) := by
  simp [enforceLevel1, h]

theorem enforceLevel2_skip (past : List Record) (e : Record) (h : e.level2 = none) :
    enforceLevel2 past e = (e, []) := by
  simp [enforceLevel2, h]

theorem enforceLevel3_skip (past : List Record) (e : Record) (h : e.level3 = none) :
    enforceLevel3 past e = (e, []) := by
  simp [enforceLevel3, h]

theorem enforceLevel1_fire (past : List Record) (e : Record)
    (hq : e.level1 = some "QUALIFIED") (hs : 2 ≤ submissionCount past Level.one)
    (hc : past.length < 10 ∨ e.average.getD 0 < 75) :
    enforceLevel1 past e =
      ({ e with level1 := some "NOT QUALIFIED" },
       ["Level 1 requires 10 courses with at least 75% average."]) := by
  unfold enforceLevel1
  rw [if_pos (by simp [hq, hs]), if_pos (by rcases hc with hc | hc <;> simp [hc])]

theorem enforceLevel3_fire (past : List Record) (e : Record)
    (hq : e.level3 = some "QUALIFIED") (hs : 2 ≤ submissionCount past Level.three)
    (hc : past.length < 5 ∨ e.average.getD 0 < 90 ∨ optFalsy e.managerReferral = true) :
    enforceLevel3 past e =
      ({ e with level3 := some "NOT QUALIFIED" },
       ["Level 3 requires 5 courses with 90% average + Manager Referral."]) := by
  unfold enforceLevel3
  rw [if_pos (by simp [hq, hs]), if_pos (by rcases hc with hc | hc | hc <;> simp [hc])]

theorem enforceThresholds_skip (past : List Record) (e : Record)
    (h1 : e.level1 = none) (h2 : e.level2 = none) (h3 : e.level3 = none) :
    enforceThresholds past e = (e, []) := by
  simp [enforceThresholds, enforceLevel1_skip past e h1, enforceLevel2_skip past e h2,
    enforceLevel3_skip past e h3]

theorem enforceLevel1_shape (past : List Record) (e : Record) :
    (enforceLevel1 past e).1 = e ∨
      (e.level1 = some "QUALIFIED" ∧
        (enforceLevel1 past e).1 = { e with level1 := some "NOT QUALIFIED" }) := by
  unfold enforceLevel1
  by_cases h : ((e.level1 == some "QUALIFIED")
      && decide (2 ≤ submissionCount past Level.one)) = true
  · rw [if_pos h]
    by_cases h2 : (decide (past.length < 10) || decide (e.average.getD 0 < 75)) = true
    · rw [if_pos h2]
      exact Or.inr ⟨by simpa using ((Bool.and_eq_true _ _).mp h).1, rfl⟩
    · rw [if_neg h2]
      exact Or.inl rfl
  · rw [if_neg h]
    exact Or.inl rfl

theorem enforceLevel2_shape (past : List Record) (e : Record) :
    (enforceLevel2 past e).1 = e ∨
      (e.level2 = some "QUALIFIED" ∧
        (enforceLevel2 past e).1 = { e with level2 := some "NOT QUALIFIED" }) := by
  unfold enforceLevel2
  by_cases h : ((e.level2 == some "QUALIFIED")
      && decide (2 ≤ submissionCount past Level.two)) = true
  · rw [if_pos h]
    by_cases h2 : (decide (past.length < 10) || decide (e.average.getD 0 < 80)) = true
    · rw [if_pos h2]
      exact Or.inr ⟨by simpa using ((Bool.and_eq_true _ _).mp h).1, rfl⟩
    · rw [if_neg h2]
      exact Or.inl rfl
  · rw [if_neg h]
    exact Or.inl rfl

theorem enforceLevel3_shape (past : List Record) (e : Record) :
    (enforceLevel3 past e).1 = e ∨
      (e.level3 = some "QUALIFIED" ∧
        (enforceLevel3 past e).1 = { e with level3 := some "NOT QUALIFIED" }) := by
  unfold enforceLevel3
  by_cases h : ((e.level3 == some "QUALIFIED")
      && decide (2 ≤ submissionCount past Level.three)) = true
  · rw [if_pos h]
    by_cases h2 : (decide (past.length < 5) || decide (e.average.getD 0 < 90)
        || optFalsy e.managerReferral) = true
    · rw [if_pos h2]
      exact Or.inr ⟨by simpa using ((Bool.and_eq_true _ _).mp h).1, rfl⟩
    · rw [if_neg h2]
      exact Or.inl rfl
  · rw [if_neg h]
    exact Or.inl rfl

theorem enforceLevel1_levelFlag_none_iff (past : List Record) (e : Record) (M : Level) :
    ((enforceLevel1 past e).1.levelFlag M = none) ↔ e.levelFlag M = none := by
  rcases enforceLevel1_shape past e with h | ⟨hq, h⟩ <;> rw [h]
  cases M <;> simp [Record.levelFlag, hq]

theorem enforceLevel2_levelFlag_none_iff (past : List Record) (e : Record) (M : Level) :
    ((enforceLevel2 past e).1.levelFlag M = none) ↔ e.levelFlag M = none := by
  rcases enforceLevel2_shape past e with h | ⟨hq, h⟩ <;> rw [h]
  cases M <;> simp [Record.levelFlag, hq]

theorem enforceLevel3_levelFlag_none_iff (past : List Record) (e : Record) (M : Level) :
    ((enforceLevel3 past e).1.levelFlag M = none) ↔ e.levelFlag M = none := by
  rcases enforceLevel3_shape past e with h | ⟨hq, h⟩ <;> rw [h]
  cases M <;> simp [Record.levelFlag, hq]

theorem enforceThresholds_levelFlag_none_iff (past : List Record) (e : Record) (M : Level) :
    ((enforceThresholds past e).1.levelFlag M = none) ↔ e.levelFlag M = none := by
  simp only [enforceThresholds]
  rw [enforceLevel3_levelFlag_none_iff, enforceLevel2_levelFlag_none_iff,
    enforceLevel1_levelFlag_none_iff]

theorem selectedLevel_spec (past : List Record) :
    (selectedLevel past = some Level.one ↔ fullyQualifiedB past Level.one = false) ∧
    (selectedLevel past = some Level.two ↔
      (fullyQualifiedB past Level.one = true ∧ fullyQualifiedB past Level.two = false)) ∧
    (selectedLevel past = some Level.three ↔
      (fullyQualifiedB past Level.one = true ∧ fullyQualifiedB past Level.two = true ∧
       fullyQualifiedB past Level.three = false)) ∧
    (selectedLevel past = none ↔
      (fullyQualifiedB past Level.one = true ∧ fullyQualifiedB past Level.two = true ∧
       fullyQualifiedB past Level.three = true)) := by
  cases h1 : fullyQualifiedB past Level.one <;>
    cases h2 : fullyQualifiedB past Level.two <;>
      cases h3 : fullyQualifiedB past Level.three <;>
        simp [selectedLevel, List.find?, h1, h2, h3]

theorem editEvaluator_map_username (hash : String → String) (sel f em rl : String)
    (cp : Bool) (np : String) :
    ∀ store : List Evaluator,
      (editEvaluator hash sel f em rl cp np store).map Evaluator.username =
        store.map Evaluator.username
  | [] => rfl
  | ev :: rest => by
    unfold editEvaluator
    by_cases h : (ev.username == sel) = true
    · rw [if_pos h]
      simp
    · rw [if_neg h]
      simp [editEvaluator_map_username hash sel f em rl cp np rest]

theorem editEvaluator_map_createdAt (hash : String → String) (sel f em rl : String)
    (cp : Bool) (np : String) :
    ∀ store : List Evaluator,
      (editEvaluator hash sel f em rl cp np store).map Evaluator.createdAt =
        store.map Evaluator.createdAt
  | [] => rfl
  | ev :: rest => by
    unfold editEvaluator
    by_cases h : (ev.username == sel) = true
    · rw [if_pos h]
      simp
    · rw [if_neg h]
      simp [editEvaluator_map_createdAt hash sel f em rl cp np rest]

/-! ### Claim theorems -/

/-- C1: for every trainer and level, the computed joint status is
`QUALIFIED` iff, among the trainer's historical records with that level
marked `QUALIFIED`, the evaluator roles include one matching the
substring "technical" and one matching the substring "school"
(case-insensitively); otherwise it is `NOT QUALIFIED`. -/
theorem joint_status_requires_both_roles (store : List Record) (tid : String) (L : Level) :
    (jointStatus (pastAssessments store tid) L = "QUALIFIED" ↔
      ((∃ r ∈ pastAssessments store tid,
          r.levelFlag L = some "QUALIFIED" ∧
          strContains (strLower r.evalRole) "technical" = true) ∧
       (∃ r ∈ pastAssessments store tid,
          r.levelFlag L = some "QUALIFIED" ∧
          strContains (strLower r.evalRole) "school" = true))) ∧
    (jointStatus (pastAssessments store tid) L = "QUALIFIED" ∨
     jointStatus (pastAssessments store tid) L = "NOT QUALIFIED") := by
  refine ⟨?_, jointStatus_cases _ _⟩
  rw [jointStatus_eq_qualified_iff, hasTech_iff, hasOps_iff]

/-- C4: submission is sequentially gated — the gate for level 1 always
passes, the gate for level 2 passes exactly when level 1's joint status is
`QUALIFIED`, the gate for level 3 exactly when level 2's is, and an
assessment form is never rendered for a level whose gate fails. -/
theorem sequential_gating (store : List Record) (tid : String) (L : Level) :
    gateOpen (pastAssessments store tid) Level.one = true ∧
    (gateOpen (pastAssessments store tid) Level.two = true ↔
      jointStatus (pastAssessments store tid) Level.one = "QUALIFIED") ∧
    (gateOpen (pastAssessments store tid) Level.three = true ↔
      jointStatus (pastAssessments store tid) Level.two = "QUALIFIED") ∧
    (formShown (pastAssessments store tid) L
      && !gateOpen (pastAssessments store tid) L) = false := by
  refine ⟨rfl, by simp [gateOpen], by simp [gateOpen], ?_⟩
  cases hg : gateOpen (pastAssessments store tid) L <;> simp [formShown, hg]

/-- C5: a trainer with zero historical records has joint status
`NOT QUALIFIED` and submission count 0 at every level. -/
theorem zero_records_not_qualified (store : List Record) (tid : String) (L : Level)
    (h : pastAssessments store tid = []) :
    jointStatus (pastAssessments store tid) L = "NOT QUALIFIED" ∧
    submissionCount (pastAssessments store tid) L = 0 := by
  rw [h]
  exact ⟨rfl, rfl⟩

/-- Witness for C5 at the empty store. -/
theorem zero_records_not_qualified_witness :
    jointStatus (pastAssessments [] "TR001") Level.one = "NOT QUALIFIED" ∧
    submissionCount (pastAssessments [] "TR001") Level.one = 0 :=
  zero_records_not_qualified [] "TR001" Level.one rfl

/-- C6: the submission count of a level is the number of distinct
evaluator usernames among the trainer's records with that level marked
`QUALIFIED`; a level qualified only under a Technical Evaluator has joint
status `NOT QUALIFIED` with count 1, and one qualified by both roles under
two distinct usernames has joint status `QUALIFIED` with count 2. -/
theorem submission_count_distinct_usernames :
    (∀ (store : List Record) (tid : String) (L : Level),
      submissionCount (pastAssessments store tid) L =
        ((levelRows (pastAssessments store tid) L).map
          (fun r => r.evalUsername)).toFinset.card) ∧
    (jointStatus (pastAssessments storeTechOnly "TR001") Level.one = "NOT QUALIFIED" ∧
      submissionCount (pastAssessments storeTechOnly "TR001") Level.one = 1) ∧
    (jointStatus (pastAssessments storeBothRoles "TR001") Level.one = "QUALIFIED" ∧
      submissionCount (pastAssessments storeBothRoles "TR001") Level.one = 2) := by
  refine ⟨fun store tid L => ?_, ⟨rfl, rfl⟩, ⟨rfl, rfl⟩⟩
  rw [submissionCount, List.card_toFinset]

/-- C7: a submission with an empty trainer identifier is rejected with an
error (so nothing is appended to the store), and this is the only hard
rejection: every submission with a non-empty trainer identifier succeeds,
returning the appended store and at most warnings. -/
theorem empty_trainer_id_rejected (store : List Record) (tname dept uname role : String)
    (inputs : Level → LevelInput) :
    submitEvaluation store "" tname dept uname role inputs =
      Except.error "Trainer ID is required." ∧
    ∀ tid : String, tid ≠ "" →
      submitEvaluation store tid tname dept uname role inputs =
        Except.ok (store ++ [finalEntry store tid tname dept uname role inputs],
                   submitWarnings store tid tname dept uname role inputs) := by
  refine ⟨rfl, fun tid h => ?_⟩
  rw [submitEvaluation, if_neg (by simpa using h)]

/-- Witness for C7 at a concrete non-empty trainer identifier. -/
theorem empty_trainer_id_rejected_witness :
    submitEvaluation storeTechOnly "TR001" "T" "D" "alice" "Technical Evaluator"
        (fun _ => qualifiedInput 99) =
      Except.ok (storeTechOnly ++
          [finalEntry storeTechOnly "TR001" "T" "D" "alice" "Technical Evaluator"
            (fun _ => qualifiedInput 99)],
        submitWarnings storeTechOnly "TR001" "T" "D" "alice" "Technical Evaluator"
          (fun _ => qualifiedInput 99)) :=
  (empty_trainer_id_rejected storeTechOnly "T" "D" "alice" "Technical Evaluator"
    (fun _ => qualifiedInput 99)).2 "TR001" (by decide)

/-- C8: every successful submission appends exactly one record at the end
of the store; the previously existing records are unchanged and keep
their order. -/
theorem submission_appends_one_record (store : List Record)
    (tid tname dept uname role : String) (inputs : Level → LevelInput)
    (h : tid ≠ "") :
    ∃ newStore warnings,
      submitEvaluation store tid tname dept uname role inputs =
        Except.ok (newStore, warnings) ∧
      newStore = store ++ [finalEntry store tid tname dept uname role inputs] ∧
      newStore.take store.length = store ∧
      newStore.length = store.length + 1 := by
  refine ⟨store ++ [finalEntry store tid tname dept uname role inputs],
    submitWarnings store tid tname dept uname role inputs, ?_, rfl, ?_, ?_⟩
  · rw [submitEvaluation, if_neg (by simpa using h)]
  · simp
  · simp

/-- Witness for C8 at a concrete non-empty trainer identifier. -/
theorem submission_appends_one_record_witness :
    ∃ newStore warnings,
      submitEvaluation storeBothRoles "TR001" "T" "D" "bob" "School Operations Evaluator"
          (fun _ => qualifiedInput 80) =
        Except.ok (newStore, warnings) ∧
      newStore = storeBothRoles ++
        [finalEntry storeBothRoles "TR001" "T" "D" "bob" "School Operations Evaluator"
          (fun _ => qualifiedInput 80)] ∧
      newStore.take storeBothRoles.length = storeBothRoles ∧
      newStore.length = storeBothRoles.length + 1 :=
  submission_appends_one_record storeBothRoles "TR001" "T" "D" "bob"
    "School Operations Evaluator" (fun _ => qualifiedInput 80) (by decide)

/-- C2 counterexample: a trainer with 8 historical courses (all level-1
`QUALIFIED` marks from a single evaluator, so the prior submission count
is 1) submits level 1 as `QUALIFIED`; the stored flag remains `QUALIFIED`
and no warning is surfaced, contradicting the claim that it is downgraded
whenever the record count is below 10. -/
theorem level1_threshold_counterexample :
    (pastAssessments storeEightCourses "TR001").length = 8 ∧
    submissionCount (pastAssessments storeEightCourses "TR001") Level.one = 1 ∧
    (preEntry storeEightCourses "TR001" "T" "D" "carol" "Technical Evaluator"
      (qInputs 99)).level1 = some "QUALIFIED" ∧
    (finalEntry storeEightCourses "TR001" "T" "D" "carol" "Technical Evaluator"
      (qInputs 99)).level1 = some "QUALIFIED" ∧
    submitWarnings storeEightCourses "TR001" "T" "D" "carol" "Technical Evaluator"
      (qInputs 99) = [] ∧
    submitEvaluation storeEightCourses "TR001" "T" "D" "carol" "Technical Evaluator"
        (qInputs 99) =
      Except.ok (storeEightCourses ++
        [finalEntry storeEightCourses "TR001" "T" "D" "carol" "Technical Evaluator"
          (qInputs 99)], []) :=
  ⟨rfl, rfl, rfl, rfl, rfl, rfl⟩

/-- C2 (amended): the level-1 threshold downgrade applies only when the
prior level-1 submission count is at least 2; in that case a submitted
`QUALIFIED` flag with fewer than 10 historical records or an AVERAGE below
75 is stored as `NOT QUALIFIED` and the warning is surfaced. -/
theorem level1_threshold_guarded (store : List Record)
    (tid tname dept uname role : String) (inputs : Level → LevelInput)
    (ht : tid ≠ "")
    (hq : (preEntry store tid tname dept uname role inputs).level1 = some "QUALIFIED")
    (hs : 2 ≤ submissionCount (pastAssessments store tid) Level.one)
    (hc : (pastAssessments store tid).length < 10 ∨
      (preEntry store tid tname dept uname role inputs).average.getD 0 < 75) :
    (finalEntry store tid tname dept uname role inputs).level1 = some "NOT QUALIFIED" ∧
    "Level 1 requires 10 courses with at least 75% average." ∈
      submitWarnings store tid tname dept uname role inputs ∧
    submitEvaluation store tid tname dept uname role inputs =
      Except.ok (store ++ [finalEntry store tid tname dept uname role inputs],
        submitWarnings store tid tname dept uname role inputs) := by
  have hsel : selectedLevel (pastAssessments store tid) = some Level.one := by
    by_contra hn
    have h0 : (preEntry store tid tname dept uname role inputs).level1 = none :=
      (preEntry_levelFlag_none_iff store tid tname dept uname role inputs Level.one).mpr hn
    rw [hq] at h0
    exact Option.noConfusion h0
  have h2 : (preEntry store tid tname dept uname role inputs).level2 = none :=
    (preEntry_levelFlag_none_iff store tid tname dept uname role inputs Level.two).mpr
      (by rw [hsel]; simp)
  have h3 : (preEntry store tid tname dept uname role inputs).level3 = none :=
    (preEntry_levelFlag_none_iff store tid tname dept uname role inputs Level.three).mpr
      (by rw [hsel]; simp)
  have e1 := enforceLevel1_fire (pastAssessments store tid)
    (preEntry store tid tname dept uname role inputs) hq hs hc
  have e2 := enforceLevel2_skip (pastAssessments store tid)
    { preEntry store tid tname dept uname role inputs with level1 := some "NOT QUALIFIED" } h2
  have e3 := enforceLevel3_skip (pastAssessments store tid)
    { preEntry store tid tname dept uname role inputs with level1 := some "NOT QUALIFIED" } h3
  have hET : enforceThresholds (pastAssessments store tid)
      (preEntry store tid tname dept uname role inputs) =
      ({ preEntry store tid tname dept uname role inputs with level1 := some "NOT QUALIFIED" },
       ["Level 1 requires 10 courses with at least 75% average."]) := by
    simp [enforceThresholds, e1, e2, e3]
  refine ⟨?_, ?_, ?_⟩
  · simp [finalEntry, hET]
  · simp [submitWarnings, hET]
  · rw [submitEvaluation, if_neg (by simpa using ht)]

/-- Witness for the amended C2: two distinct Technical Evaluators already
marked level 1 `QUALIFIED` (count 2, joint status still `NOT QUALIFIED`),
and the new `QUALIFIED` submission with only 2 historical courses is
stored as `NOT QUALIFIED` with the warning. -/
theorem level1_threshold_guarded_witness :
    (finalEntry storeTwoTech "TR001" "T" "D" "carol" "Technical Evaluator"
      (qInputs 99)).level1 = some "NOT QUALIFIED" ∧
    "Level 1 requires 10 courses with at least 75% average." ∈
      submitWarnings storeTwoTech "TR001" "T" "D" "carol" "Technical Evaluator" (qInputs 99) ∧
    submitEvaluation storeTwoTech "TR001" "T" "D" "carol" "Technical Evaluator" (qInputs 99) =
      Except.ok (storeTwoTech ++
        [finalEntry storeTwoTech "TR001" "T" "D" "carol" "Technical Evaluator" (qInputs 99)],
        submitWarnings storeTwoTech "TR001" "T" "D" "carol" "Technical Evaluator"
          (qInputs 99)) :=
  level1_threshold_guarded storeTwoTech "TR001" "T" "D" "carol" "Technical Evaluator"
    (qInputs 99) (by decide) (by decide) (by decide) (Or.inl (by decide))

/-- C3 counterexample: levels 1 and 2 are fully qualified, the trainer has
6 historical courses and level 3 is submitted `QUALIFIED` with average 92
and an empty manager referral; since the prior level-3 submission count is
0, the stored flag remains `QUALIFIED`, contradicting the claim that an
empty manager referral forces a downgrade. -/
theorem level3_threshold_counterexample :
    (pastAssessments storeSixCourses "TR001").length = 6 ∧
    submissionCount (pastAssessments storeSixCourses "TR001") Level.three = 0 ∧
    (preEntry storeSixCourses "TR001" "T" "D" "carol" "Technical Evaluator"
      (qInputs 92)).level3 = some "QUALIFIED" ∧
    (preEntry storeSixCourses "TR001" "T" "D" "carol" "Technical Evaluator"
      (qInputs 92)).average = some 92 ∧
    (preEntry storeSixCourses "TR001" "T" "D" "carol" "Technical Evaluator"
      (qInputs 92)).managerReferral = none ∧
    (finalEntry storeSixCourses "TR001" "T" "D" "carol" "Technical Evaluator"
      (qInputs 92)).level3 = some "QUALIFIED" ∧
    submitWarnings storeSixCourses "TR001" "T" "D" "carol" "Technical Evaluator"
      (qInputs 92) = [] :=
  ⟨rfl, rfl, rfl, rfl, rfl, rfl, rfl⟩

/-- C3 (amended): the level-3 threshold downgrade applies only when the
prior level-3 submission count is at least 2; in that case a submitted
`QUALIFIED` flag with fewer than 5 historical records, an AVERAGE below
90, or an absent/empty manager referral is stored as `NOT QUALIFIED` and
the warning is surfaced. -/
theorem level3_threshold_guarded (store : List Record)
    (tid tname dept uname role : String) (inputs : Level → LevelInput)
    (ht : tid ≠ "")
    (hq : (preEntry store tid tname dept uname role inputs).level3 = some "QUALIFIED")
    (hs : 2 ≤ submissionCount (pastAssessments store tid) Level.three)
    (hc : (pastAssessments store tid).length < 5 ∨
      (preEntry store tid tname dept uname role inputs).average.getD 0 < 90 ∨
      optFalsy (preEntry store tid tname dept uname role inputs).managerReferral = true) :
    (finalEntry store tid tname dept uname role inputs).level3 = some "NOT QUALIFIED" ∧
    "Level 3 requires 5 courses with 90% average + Manager Referral." ∈
      submitWarnings store tid tname dept uname role inputs ∧
    submitEvaluation store tid tname dept uname role inputs =
      Except.ok (store ++ [finalEntry store tid tname dept uname role inputs],
        submitWarnings store tid tname dept uname role inputs) := by
  have hsel : selectedLevel (pastAssessments store tid) = some Level.three := by
    by_contra hn
    have h0 : (preEntry store tid tname dept uname role inputs).level3 = none :=
      (preEntry_levelFlag_none_iff store tid tname dept uname role inputs Level.three).mpr hn
    rw [hq] at h0
    exact Option.noConfusion h0
  have h1 : (preEntry store tid tname dept uname role inputs).level1 = none :=
    (preEntry_levelFlag_none_iff store tid tname dept uname role inputs Level.one).mpr
      (by rw [hsel]; simp)
  have h2 : (preEntry store tid tname dept uname role inputs).level2 = none :=
    (preEntry_levelFlag_none_iff store tid tname dept uname role inputs Level.two).mpr
      (by rw [hsel]; simp)
  have e1 := enforceLevel1_skip (pastAssessments store tid)
    (preEntry store tid tname dept uname role inputs) h1
  have e2 := enforceLevel2_skip (pastAssessments store tid)
    (preEntry store tid tname dept uname role inputs) h2
  have e3 := enforceLevel3_fire (pastAssessments store tid)
    (preEntry store tid tname dept uname role inputs) hq hs hc
  have hET : enforceThresholds (pastAssessments store tid)
      (preEntry store tid tname dept uname role inputs) =
      ({ preEntry store tid tname dept uname role inputs with level3 := some "NOT QUALIFIED" },
       ["Level 3 requires 5 courses with 90% average + Manager Referral."]) := by
    simp [enforceThresholds, e1, e2, e3]
  refine ⟨?_, ?_, ?_⟩
  · simp [finalEntry, hET]
  · simp [submitWarnings, hET]
  · rw [submitEvaluation, if_neg (by simpa using ht)]

/-- Witness for the amended C3: levels 1 and 2 fully qualified, level 3
marked `QUALIFIED` by two distinct Technical Evaluators (count 2), and the
new `QUALIFIED` submission with 4 historical courses and empty referral is
stored as `NOT QUALIFIED` with the warning. -/
theorem level3_threshold_guarded_witness :
    (finalEntry storeLevel3TwoTech "TR001" "T" "D" "erin" "Technical Evaluator"
      (qInputs 92)).level3 = some "NOT QUALIFIED" ∧
    "Level 3 requires 5 courses with 90% average + Manager Referral." ∈
      submitWarnings storeLevel3TwoTech "TR001" "T" "D" "erin" "Technical Evaluator"
        (qInputs 92) ∧
    submitEvaluation storeLevel3TwoTech "TR001" "T" "D" "erin" "Technical Evaluator"
        (qInputs 92) =
      Except.ok (storeLevel3TwoTech ++
        [finalEntry storeLevel3TwoTech "TR001" "T" "D" "erin" "Technical Evaluator"
          (qInputs 92)],
        submitWarnings storeLevel3TwoTech "TR001" "T" "D" "erin" "Technical Evaluator"
          (qInputs 92)) :=
  level3_threshold_guarded storeLevel3TwoTech "TR001" "T" "D" "erin" "Technical Evaluator"
    (qInputs 92) (by decide) (by decide) (by decide) (Or.inl (by decide))

/-- C9: administrator operations keep the evaluator usernames pairwise
distinct: adding an existing username is rejected and leaves the store
unchanged, editing changes only full name, email, role and optionally the
password hash (never the username or creation timestamp), and deleting
removes exactly the rows with the selected username. -/
theorem evaluator_store_invariants (store : List Evaluator) (hash : String → String)
    (hnd : (store.map Evaluator.username).Nodup)
    (uname pass fname em rl ts sel efn eem erl : String) (cp : Bool) (np : String) :
    ((addEvaluator hash store uname pass fname em rl ts).map Evaluator.username).Nodup ∧
    (store.any (fun ev => ev.username == uname) = true →
      addEvaluator hash store uname pass fname em rl ts = store) ∧
    ((editEvaluator hash sel efn eem erl cp np store).map Evaluator.username =
      store.map Evaluator.username) ∧
    ((editEvaluator hash sel efn eem erl cp np store).map Evaluator.createdAt =
      store.map Evaluator.createdAt) ∧
    ((editEvaluator hash sel efn eem erl cp np store).map Evaluator.username).Nodup ∧
    (∀ ev : Evaluator, ev ∈ deleteEvaluator store sel ↔ (ev ∈ store ∧ ev.username ≠ sel)) ∧
    ((deleteEvaluator store sel).map Evaluator.username).Nodup := by
  refine ⟨?_, ?_, editEvaluator_map_username hash sel efn eem erl cp np store,
    editEvaluator_map_createdAt hash sel efn eem erl cp np store, ?_, ?_, ?_⟩
  · unfold addEvaluator
    by_cases h1 : ((uname == "") || (pass == "")) = true
    · rw [if_pos h1]
      exact hnd
    · rw [if_neg h1]
      by_cases h2 : (store.any fun ev => ev.username == uname) = true
      · rw [if_pos h2]
        exact hnd
      · rw [if_neg h2]
        have hnot : uname ∉ store.map Evaluator.username := by
          intro hmem
          apply h2
          rw [List.any_eq_true]
          obtain ⟨ev, hev, heq⟩ := List.mem_map.mp hmem
          exact ⟨ev, hev, by simp [heq]⟩
        simp [List.nodup_append, hnd, hnot]
  · intro h
    simp [addEvaluator, h]
  · rw [editEvaluator_map_username]
    exact hnd
  · intro ev
    simp [deleteEvaluator, List.mem_filter, bne_iff_ne]
  · exact hnd.sublist ((List.filter_sublist _).map _)

/-- Witness for C9: on a two-account store, adding a duplicate username
"alice" is a no-op, and delete keeps the username list duplicate-free. -/
theorem evaluator_store_invariants_witness :
    addEvaluator (fun s => s) evStore "alice" "pw" "X" "x@x" "Evaluator" "2024-02-02" =
      evStore ∧
    ((deleteEvaluator evStore "alice").map Evaluator.username).Nodup := by
  have h := evaluator_store_invariants evStore (fun s => s) (by decide)
    "alice" "pw" "X" "x@x" "Evaluator" "2024-02-02" "alice" "B" "b2@x" "Viewer" true "np"
  exact ⟨h.2.1 (by decide), h.2.2.2.2.2.2⟩

/-- C10: a submission writes the per-level assessment columns for at most
one level — the first level in order 1, 2, 3 whose joint status is not
already `QUALIFIED` with at least 2 submissions — and the appended
record's flag columns for every other level are left empty; when all three
levels are already fully qualified the appended record carries no
per-level data at all. -/
theorem single_level_written (store : List Record) (tid tname dept uname role : String)
    (inputs : Level → LevelInput) (ht : tid ≠ "") :
    (∀ M : Level, selectedLevel (pastAssessments store tid) ≠ some M →
      (finalEntry store tid tname dept uname role inputs).levelFlag M = none) ∧
    (∀ M : Level, selectedLevel (pastAssessments store tid) = some M →
      (finalEntry store tid tname dept uname role inputs).levelFlag M ≠ none) ∧
    (selectedLevel (pastAssessments store tid) = none →
      finalEntry store tid tname dept uname role inputs =
        blankEntry tid tname dept uname role) ∧
    (selectedLevel (pastAssessments store tid) = some Level.one ↔
      fullyQualifiedB (pastAssessments store tid) Level.one = false) ∧
    (selectedLevel (pastAssessments store tid) = some Level.two ↔
      (fullyQualifiedB (pastAssessments store tid) Level.one = true ∧
       fullyQualifiedB (pastAssessments store tid) Level.two = false)) ∧
    (selectedLevel (pastAssessments store tid) = some Level.three ↔
      (fullyQualifiedB (pastAssessments store tid) Level.one = true ∧
       fullyQualifiedB (pastAssessments store tid) Level.two = true ∧
       fullyQualifiedB (pastAssessments store tid) Level.three = false)) ∧
    submitEvaluation store tid tname dept uname role inputs =
      Except.ok (store ++ [finalEntry store tid tname dept uname role inputs],
        submitWarnings store tid tname dept uname role inputs) := by
  obtain ⟨s1, s2, s3, _⟩ := selectedLevel_spec (pastAssessments store tid)
  refine ⟨?_, ?_, ?_, s1, s2, s3, ?_⟩
  · intro M hM
    exact (enforceThresholds_levelFlag_none_iff (pastAssessments store tid)
        (preEntry store tid tname dept uname role inputs) M).mpr
      ((preEntry_levelFlag_none_iff store tid tname dept uname role inputs M).mpr hM)
  · intro M hM hnone
    have hpnone := (enforceThresholds_levelFlag_none_iff (pastAssessments store tid)
      (preEntry store tid tname dept uname role inputs) M).mp hnone
    exact (preEntry_levelFlag_none_iff store tid tname dept uname role inputs M).mp hpnone hM
  · intro hnone
    have hpre : preEntry store tid tname dept uname role inputs =
        blankEntry tid tname dept uname role := by
      simp [preEntry, hnone]
    show (enforceThresholds (pastAssessments store tid)
      (preEntry store tid tname dept uname role inputs)).1 = _
    rw [hpre, enforceThresholds_skip (pastAssessments store tid)
      (blankEntry tid tname dept uname role) rfl rfl rfl]
  · rw [submitEvaluation, if_neg (by simpa using ht)]

/-- Witness for C10 on the empty store: level 1 is the selected level and
the other flag columns of the appended record are empty. -/
theorem single_level_written_witness :
    (∀ M : Level, selectedLevel (pastAssessments [] "TR001") ≠ some M →
      (finalEntry [] "TR001" "T" "D" "alice" "Technical Evaluator"
        (qInputs 99)).levelFlag M = none) ∧
    (∀ M : Level, selectedLevel (pastAssessments [] "TR001") = some M →
      (finalEntry [] "TR001" "T" "D" "alice" "Technical Evaluator"
        (qInputs 99)).levelFlag M ≠ none) ∧
    (selectedLevel (pastAssessments [] "TR001") = none →
      finalEntry [] "TR001" "T" "D" "alice" "Technical Evaluator" (qInputs 99) =
        blankEntry "TR001" "T" "D" "alice" "Technical Evaluator") ∧
    (selectedLevel (pastAssessments [] "TR001") = some Level.one ↔
      fullyQualifiedB (pastAssessments [] "TR001") Level.one = false) ∧
    (selectedLevel (pastAssessments [] "TR001") = some Level.two ↔
      (fullyQualifiedB (pastAssessments [] "TR001") Level.one = true ∧
       fullyQualifiedB (pastAssessments [] "TR001") Level.two = false)) ∧
    (selectedLevel (pastAssessments [] "TR001") = some Level.three ↔
      (fullyQualifiedB (pastAssessments [] "TR001") Level.one = true ∧
       fullyQualifiedB (pastAssessments [] "TR001") Level.two = true ∧
       fullyQualifiedB (pastAssessments [] "TR001") Level.three = false)) ∧
    submitEvaluation [] "TR001" "T" "D" "alice" "Technical Evaluator" (qInputs 99) =
      Except.ok ([] ++ [finalEntry [] "TR001" "T" "D" "alice" "Technical Evaluator"
          (qInputs 99)],
        submitWarnings [] "TR001" "T" "D" "alice" "Technical Evaluator" (qInputs 99)) :=
  single_level_written [] "TR001" "T" "D" "alice" "Technical Evaluator" (qInputs 99)
    (by decide)

end Assessment

